import Mathlib

/-
Shallow embedding of the credential-resolution engine of src/vault/tempcreds.go.

External collaborators (the STS network client, the MFA prompt, the master
credential accessor, and the keyring-backed session cache) are modelled as
oracles in an `Env` record; the engine's mutable fields (`forceSessionRefresh`,
the embedded expiry tracker, and the session cache contents) are threaded
explicitly through a `PState` record.  Every network call, MFA prompt, and
cache access performed during a resolution is recorded in a `Trace`.
-/

namespace Vault

/-- A `credentials.Value` from the aws-sdk: access key id, secret, session token. -/
structure Value where
  accessKeyID : String
  secretAccessKey : String
  sessionToken : String
deriving Repr, DecidableEq

/-- The zero `credentials.Value{}` returned by the Go code on several error branches. -/
def Value.zero : Value := ⟨"", "", ""⟩

/-- An `sts.Credentials`: key material plus the absolute expiration instant
(wall-clock, modelled as an integer number of nanoseconds). -/
structure STSCredentials where
  accessKeyId : String
  secretAccessKey : String
  sessionToken : String
  expiration : Int
deriving Repr, DecidableEq

/-- Converts an `sts.Credentials` to the `credentials.Value` struct literal the
Go code builds from it (dropping the expiration). -/
def Value.ofSession (s : STSCredentials) : Value :=
  ⟨s.accessKeyId, s.secretAccessKey, s.sessionToken⟩

/-- The configuration fields of `Config` that `TempCredentialsProvider` reads.
Durations are in seconds, matching `DurationSeconds` on the wire. -/
structure Config where
  credentialsName : String
  roleARN : String
  externalID : String
  roleSessionName : String
  mfaSerial : String
  mfaToken : String
  noSession : Bool
  sessionDurationSeconds : Int
  assumeRoleDurationSeconds : Int
  region : String
deriving Repr, DecidableEq

/-- Error values the engine can return.  `noRoleDefined` is the only error the
engine constructs itself (`errors.New("No role defined")`); the other
constructors wrap opaque error messages coming from a collaborator, so a
collaborator cannot forge the engine's own configuration error. -/
inductive Err where
  | noRoleDefined
  | promptFailed (msg : String)
  | network (msg : String)
  | cacheNotFound
  | cacheReadFailed
  | cacheStoreFailed (msg : String)
  | masterFailed (msg : String)
deriving Repr, DecidableEq

/-- The `sts.GetSessionTokenInput` request the engine builds. -/
structure GetSessionTokenInput where
  durationSeconds : Int
  serialNumber : Option String
  tokenCode : Option String
deriving Repr, DecidableEq

/-- The `sts.AssumeRoleInput` request the engine builds. -/
structure AssumeRoleInput where
  roleArn : String
  roleSessionName : String
  durationSeconds : Int
  externalId : Option String
  serialNumber : Option String
  tokenCode : Option String
deriving Repr, DecidableEq

/-- One recorded AssumeRole network call: the base credentials the STS client
was constructed from, and the request it carried. -/
structure AssumeCallRec where
  base : Value
  input : AssumeRoleInput
deriving Repr, DecidableEq

/-- The instrumentation record of one resolution: every elevate (GetSessionToken)
call, every AssumeRole call, every MFA prompt message, and every session-cache
read and write (by key), in order. -/
structure Trace where
  elevates : List GetSessionTokenInput
  assumes : List AssumeCallRec
  prompts : List String
  cacheReads : List (String × String)
  cacheWrites : List (String × String)
deriving Repr, DecidableEq

def Trace.empty : Trace := ⟨[], [], [], [], []⟩

def Trace.app (a b : Trace) : Trace :=
  ⟨a.elevates ++ b.elevates, a.assumes ++ b.assumes, a.prompts ++ b.prompts,
   a.cacheReads ++ b.cacheReads, a.cacheWrites ++ b.cacheWrites⟩

/-- The oracle behaviour of the external collaborators during one resolution.
Collaborator failures carry opaque string messages. -/
structure Env where
  masterGet : Except String Value
  elevate : GetSessionTokenInput → Except String STSCredentials
  assume : Value → AssumeRoleInput → Except String STSCredentials
  prompt : String → Except String String
  cacheReadFails : Bool
  storeFails : Option String
  nowUnixNano : Int

/-- The mutable state of a `TempCredentialsProvider`: the `forceSessionRefresh`
flag, whether `masterCreds.Expire()` has been called, the last
`SetExpiration(instant, window)` call recorded by the embedded
`credentials.Expiry`, and the contents of the keyring session cache. -/
structure PState where
  forceSessionRefresh : Bool
  masterExpired : Bool
  lastSetExpiration : Option (Int × Int)
  cache : List ((String × String) × STSCredentials)
deriving Repr, DecidableEq

/-- Result record of `getSessionToken`: the `(*sts.Credentials, error)` pair
plus the threaded state and trace. -/
structure GSR where
  res : Except Err STSCredentials
  state : PState
  tr : Trace
deriving Repr

/-- Result record of `Retrieve` and its three helpers: the
`(credentials.Value, error)` pair plus the threaded state and trace. -/
structure RET where
  value : Value
  err : Option Err
  state : PState
  tr : Trace
deriving Repr

/-- The `DefaultExpirationWindow` constant: `5 * time.Minute` in nanoseconds. -/
def DefaultExpirationWindow : Int := 5 * 60 * 1000000000

/-- Association lookup in the session cache by (credentials name, mfa serial). -/
def cacheLookup : List ((String × String) × STSCredentials) → String → String →
    Option STSCredentials
  | [], _, _ => none
  | (k, v) :: rest, n, s => if k = (n, s) then some v else cacheLookup rest n s

/-- Insert-or-overwrite in the session cache by (credentials name, mfa serial). -/
def cacheInsert : List ((String × String) × STSCredentials) → String → String →
    STSCredentials → List ((String × String) × STSCredentials)
  | [], n, s, v => [((n, s), v)]
  | (k, w) :: rest, n, s, v =>
      if k = (n, s) then ((n, s), v) :: rest else (k, w) :: cacheInsert rest n s v

/-- Modelled from the spec: the `KeyringSessions.Retrieve` collaborator (its
implementation is not under src/).  Per the spec's SessionCache contract it
returns the stored token for the literal key pair or a not-found error; a
backend read failure (injected by the environment) is likewise an error. -/
def sessionsRetrieve (env : Env) (cache : List ((String × String) × STSCredentials))
    (n s : String) : Except Err STSCredentials :=
  if env.cacheReadFails then .error .cacheReadFailed
  else
    match cacheLookup cache n s with
    | some tok => .ok tok
    | none => .error .cacheNotFound

/-- Modelled from the spec: the `KeyringSessions.Store` collaborator (its
implementation is not under src/).  Per the spec's SessionCache contract it
overwrites any prior entry under the literal key pair and returns OK, or fails
with a backend error (injected by the environment), leaving the cache unchanged. -/
def sessionsStore (env : Env) (cache : List ((String × String) × STSCredentials))
    (n s : String) (tok : STSCredentials) :
    Except String (List ((String × String) × STSCredentials)) :=
  match env.storeFails with
  | some m => .error m
  | none => .ok (cacheInsert cache n s tok)

/-- The MFA prompt message `fmt.Sprintf("Enter token for %s: ", serial)`. -/
def mfaMessage (serial : String) : String := "Enter token for " ++ serial ++ ": "

/-- Wraps the elevate (GetSessionToken) network oracle, tagging its failure. -/
def elevateCall (env : Env) (input : GetSessionTokenInput) : Except Err STSCredentials :=
  match env.elevate input with
  | .error m => .error (.network m)
  | .ok c => .ok c

/-- Wraps the AssumeRole network oracle, tagging its failure. -/
def assumeCall (env : Env) (base : Value) (input : AssumeRoleInput) :
    Except Err STSCredentials :=
  match env.assume base input with
  | .error m => .error (.network m)
  | .ok c => .ok c

/-- Embeds `roleSessionName` (src/vault/tempcreds.go lines 207-214): the explicit
config value if present, otherwise the current UnixNano timestamp rendered as a
string. -/
def roleSessionName (cfg : Config) (env : Env) : String :=
  if cfg.roleSessionName ≠ "" then cfg.roleSessionName
  else toString env.nowUnixNano

/-- Embeds `createSessionToken` (src/vault/tempcreds.go lines 155-183): builds a
GetSessionToken request, resolving an MFA code first when a device is
configured (the literal `MfaToken` if non-empty, otherwise the prompt), and
performs the elevate network call. -/
def createSessionToken (cfg : Config) (env : Env) : Except Err STSCredentials × Trace :=
  let input0 : GetSessionTokenInput :=
    { durationSeconds := cfg.sessionDurationSeconds, serialNumber := none, tokenCode := none }
  if cfg.mfaSerial ≠ "" then
    if cfg.mfaToken = "" then
      match env.prompt (mfaMessage cfg.mfaSerial) with
      | .error e =>
          (.error (.promptFailed e), { Trace.empty with prompts := [mfaMessage cfg.mfaSerial] })
      | .ok token =>
          let input := { input0 with serialNumber := some cfg.mfaSerial, tokenCode := some token }
          (elevateCall env input,
           { Trace.empty with elevates := [input], prompts := [mfaMessage cfg.mfaSerial] })
    else
      let input := { input0 with serialNumber := some cfg.mfaSerial, tokenCode := some cfg.mfaToken }
      (elevateCall env input, { Trace.empty with elevates := [input] })
  else
    (elevateCall env input0, { Trace.empty with elevates := [input0] })

/-- Embeds `getSessionToken` (src/vault/tempcreds.go lines 185-205): if
`forceSessionRefresh` is set, create a fresh token directly (no cache read, no
store, and the flag is not touched); otherwise read the cache and, on any
retrieve error, create a fresh token and store it, propagating a store error. -/
def getSessionToken (cfg : Config) (env : Env) (p : PState) : GSR :=
  if p.forceSessionRefresh then
    ⟨(createSessionToken cfg env).1, p, (createSessionToken cfg env).2⟩
  else
    let readTr : Trace := { Trace.empty with cacheReads := [(cfg.credentialsName, cfg.mfaSerial)] }
    match sessionsRetrieve env p.cache cfg.credentialsName cfg.mfaSerial with
    | .ok session => ⟨.ok session, p, readTr⟩
    | .error _ =>
      match (createSessionToken cfg env).1 with
      | .error e => ⟨.error e, p, readTr.app (createSessionToken cfg env).2⟩
      | .ok session =>
        let t := readTr.app ((createSessionToken cfg env).2.app
          { Trace.empty with cacheWrites := [(cfg.credentialsName, cfg.mfaSerial)] })
        match sessionsStore env p.cache cfg.credentialsName cfg.mfaSerial session with
        | .error m => ⟨.error (.cacheStoreFailed m), p, t⟩
        | .ok cache2 => ⟨.ok session, { p with cache := cache2 }, t⟩

/-- Embeds `getCredsWithSession` (src/vault/tempcreds.go lines 78-96).  Note the
error branch of `getSessionToken` returns `credentials.Value{}, nil` — a zero
value with a nil error — exactly as the Go code does. -/
def getCredsWithSession (cfg : Config) (env : Env) (p : PState) : RET :=
  match (getSessionToken cfg env p).res with
  | .error _ =>
      ⟨Value.zero, none, (getSessionToken cfg env p).state, (getSessionToken cfg env p).tr⟩
  | .ok session =>
      ⟨Value.ofSession session, none,
       { (getSessionToken cfg env p).state with
         lastSetExpiration := some (session.expiration, DefaultExpirationWindow) },
       (getSessionToken cfg env p).tr⟩

/-- Embeds `assumeRoleFromSession` (src/vault/tempcreds.go lines 216-237): the
STS client is built from the session's temporary keys; the request carries no
MFA fields. -/
def assumeRoleFromSession (cfg : Config) (env : Env) (session : STSCredentials) :
    Except Err STSCredentials × Trace :=
  let base := Value.ofSession session
  let input : AssumeRoleInput :=
    { roleArn := cfg.roleARN, roleSessionName := roleSessionName cfg env,
      durationSeconds := cfg.assumeRoleDurationSeconds,
      externalId := if cfg.externalID ≠ "" then some cfg.externalID else none,
      serialNumber := none, tokenCode := none }
  (assumeCall env base input, { Trace.empty with assumes := [⟨base, input⟩] })

/-- Embeds `getCredsWithSessionAndRole` (src/vault/tempcreds.go lines 98-125).
As in the Go code, a `getSessionToken` error is swallowed (`Value{}, nil`)
while an AssumeRole error is propagated. -/
def getCredsWithSessionAndRole (cfg : Config) (env : Env) (p : PState) : RET :=
  match (getSessionToken cfg env p).res with
  | .error _ =>
      ⟨Value.zero, none, (getSessionToken cfg env p).state, (getSessionToken cfg env p).tr⟩
  | .ok session =>
      match (assumeRoleFromSession cfg env session).1 with
      | .error e =>
          ⟨Value.zero, some e, (getSessionToken cfg env p).state,
           (getSessionToken cfg env p).tr.app (assumeRoleFromSession cfg env session).2⟩
      | .ok role =>
          ⟨Value.ofSession role, none,
           { (getSessionToken cfg env p).state with
             lastSetExpiration := some (role.expiration, DefaultExpirationWindow) },
           (getSessionToken cfg env p).tr.app (assumeRoleFromSession cfg env session).2⟩

/-- Embeds `assumeRoleFromCreds` (src/vault/tempcreds.go lines 239-278): fails
fast on an empty role ARN, resolves an MFA code when a device is configured
(literal `MfaToken` if non-empty, otherwise the prompt), and performs the
AssumeRole network call from the given IAM credentials. -/
def assumeRoleFromCreds (cfg : Config) (env : Env) (creds : Value) :
    Except Err STSCredentials × Trace :=
  if cfg.roleARN = "" then (.error .noRoleDefined, Trace.empty)
  else
    let input0 : AssumeRoleInput :=
      { roleArn := cfg.roleARN, roleSessionName := roleSessionName cfg env,
        durationSeconds := cfg.assumeRoleDurationSeconds,
        externalId := if cfg.externalID ≠ "" then some cfg.externalID else none,
        serialNumber := none, tokenCode := none }
    if cfg.mfaSerial ≠ "" then
      if cfg.mfaToken = "" then
        match env.prompt (mfaMessage cfg.mfaSerial) with
        | .error e =>
            (.error (.promptFailed e), { Trace.empty with prompts := [mfaMessage cfg.mfaSerial] })
        | .ok token =>
            let input := { input0 with serialNumber := some cfg.mfaSerial, tokenCode := some token }
            (assumeCall env creds input,
             { Trace.empty with assumes := [⟨creds, input⟩], prompts := [mfaMessage cfg.mfaSerial] })
      else
        let input := { input0 with serialNumber := some cfg.mfaSerial, tokenCode := some cfg.mfaToken }
        (assumeCall env creds input, { Trace.empty with assumes := [⟨creds, input⟩] })
    else
      (assumeCall env creds input0, { Trace.empty with assumes := [⟨creds, input0⟩] })

/-- Embeds `getCredsWithRole` (src/vault/tempcreds.go lines 127-153): fails fast
on an empty role ARN, fetches the master credentials, assumes the role from
them, and records the expiration. -/
def getCredsWithRole (cfg : Config) (env : Env) (p : PState) : RET :=
  if cfg.roleARN = "" then ⟨Value.zero, some .noRoleDefined, p, Trace.empty⟩
  else
    match env.masterGet with
    | .error m => ⟨Value.zero, some (.masterFailed m), p, Trace.empty⟩
    | .ok creds =>
      match (assumeRoleFromCreds cfg env creds).1 with
      | .error e => ⟨Value.zero, some e, p, (assumeRoleFromCreds cfg env creds).2⟩
      | .ok role =>
          ⟨Value.ofSession role, none,
           { p with lastSetExpiration := some (role.expiration, DefaultExpirationWindow) },
           (assumeRoleFromCreds cfg env creds).2⟩

/-- Embeds `Retrieve` (src/vault/tempcreds.go lines 63-76): four-path dispatch
on `NoSession` and `RoleARN == ""`. -/
def Retrieve (cfg : Config) (env : Env) (p : PState) : RET :=
  if cfg.noSession = true ∧ cfg.roleARN = "" then
    match env.masterGet with
    | .ok v => ⟨v, none, p, Trace.empty⟩
    | .error m => ⟨Value.zero, some (.masterFailed m), p, Trace.empty⟩
  else if cfg.noSession = true then getCredsWithRole cfg env p
  else if cfg.roleARN = "" then getCredsWithSession cfg env p
  else getCredsWithSessionAndRole cfg env p

/-- Embeds `ForceRefresh` (src/vault/tempcreds.go lines 58-61): expires the
master credentials and sets `forceSessionRefresh`. -/
def ForceRefresh (p : PState) : PState :=
  { p with masterExpired := true, forceSessionRefresh := true }

/-- True exactly when an engine result is the engine's own missing-role
configuration error. -/
def isMissingRole : Option Err → Bool
  | some .noRoleDefined => true
  | _ => false

/-- True exactly when an `Except` result is the engine's own missing-role
configuration error. -/
def isMissingRoleE : Except Err STSCredentials → Bool
  | .error .noRoleDefined => true
  | _ => false

/- Concrete fixtures used by witnesses and counterexamples. -/

def masterValue : Value := ⟨"AKIAMASTER", "mastersecret", ""⟩
def tok1 : STSCredentials := ⟨"ASIAOLD", "oldsecret", "oldtoken", 111000⟩
def tok2 : STSCredentials := ⟨"ASIANEW", "newsecret", "newtoken", 222000⟩
def roleTok : STSCredentials := ⟨"ASIAROLE", "rolesecret", "roletoken", 333000⟩

/-- An environment in which every collaborator succeeds. -/
def envOk : Env :=
  { masterGet := .ok masterValue,
    elevate := fun _ => .ok tok2,
    assume := fun _ _ => .ok roleTok,
    prompt := fun _ => .ok "123456",
    cacheReadFails := false,
    storeFails := none,
    nowUnixNano := 1700000000 }

/-- A SessionOnly configuration: sessions enabled, no role, no MFA device. -/
def cfgBase : Config :=
  { credentialsName := "prod", roleARN := "", externalID := "", roleSessionName := "",
    mfaSerial := "", mfaToken := "", noSession := false,
    sessionDurationSeconds := 3600, assumeRoleDurationSeconds := 900, region := "us-east-1" }

/-- Engine state with an empty session cache and the flag clear. -/
def pEmpty : PState := ⟨false, false, none, []⟩

/-- Engine state whose cache holds `tok1` under the ("prod", "") key. -/
def pHit : PState := ⟨false, false, none, [(("prod", ""), tok1)]⟩

/-- Engine state after `ForceRefresh` with `tok1` cached under ("prod", ""). -/
def pForcedHit : PState := ⟨true, true, none, [(("prod", ""), tok1)]⟩

/-- A role ARN used by fixtures. -/
def roleArnFix : String := "arn:aws:iam::123456789012:role/Admin"

/-- An MFA device serial used by fixtures. -/
def mfaArn : String := "arn:aws:iam::123456789012:mfa/dev"

/-- A SessionThenRole configuration. -/
def cfgSessRole : Config := { cfgBase with roleARN := roleArnFix }

/-- A SessionOnly configuration with an MFA device and no literal code. -/
def cfgMfa : Config := { cfgBase with mfaSerial := mfaArn }

/-- A SessionOnly configuration with an MFA device and a literal MFA code. -/
def cfgMfaLit : Config := { cfgBase with mfaSerial := mfaArn, mfaToken := "654321" }

/-- Engine state whose cache holds `tok1` under the ("prod", mfaArn) key. -/
def pMfaHit : PState := ⟨false, false, none, [(("prod", mfaArn), tok1)]⟩

/-- Environment whose elevate network call fails. -/
def envElevFail : Env := { envOk with elevate := fun _ => .error "connection refused" }

/-- Environment whose MFA prompt fails and whose cache read backend fails. -/
def envPromptFail : Env :=
  { envOk with prompt := fun _ => .error "user cancelled", cacheReadFails := true }

/-- Environment whose cache store backend fails. -/
def envStoreFail : Env := { envOk with storeFails := some "disk full" }

/-- Environment whose cache read backend fails. -/
def envReadFail : Env := { envOk with cacheReadFails := true }

/- Helper lemmas about the embedded operations. -/

theorem cacheLookup_insert (c : List ((String × String) × STSCredentials))
    (n s : String) (tok : STSCredentials) :
    cacheLookup (cacheInsert c n s tok) n s = some tok := by
  induction c with
  | nil => simp [cacheInsert, cacheLookup]
  | cons hd tl ih =>
      rcases hd with ⟨k, w⟩
      by_cases hk : k = (n, s)
      · simp [cacheInsert, hk, cacheLookup]
      · simp [cacheInsert, hk, cacheLookup, ih]

theorem createSessionToken_assumes (cfg : Config) (env : Env) :
    (createSessionToken cfg env).2.assumes = [] := by
  unfold createSessionToken
  repeat' split
  all_goals rfl

theorem createSessionToken_cacheOps (cfg : Config) (env : Env) :
    (createSessionToken cfg env).2.cacheReads = [] ∧
    (createSessionToken cfg env).2.cacheWrites = [] := by
  unfold createSessionToken
  repeat' split
  all_goals exact ⟨rfl, rfl⟩

theorem createSessionToken_elevates_le (cfg : Config) (env : Env) :
    (createSessionToken cfg env).2.elevates.length ≤ 1 := by
  unfold createSessionToken
  repeat' split
  all_goals simp [Trace.empty]

theorem createSessionToken_ok_elevates (cfg : Config) (env : Env) (tok : STSCredentials)
    (h : (createSessionToken cfg env).1 = .ok tok) :
    (createSessionToken cfg env).2.elevates.length = 1 := by
  unfold createSessionToken at h ⊢
  by_cases hs : cfg.mfaSerial = ""
  · simp [hs, Trace.empty]
  · by_cases ht : cfg.mfaToken = ""
    · rcases hp : env.prompt (mfaMessage cfg.mfaSerial) with e | t
      · simp [hs, ht, hp] at h
      · simp [hs, ht, hp, Trace.empty]
    · simp [hs, ht, Trace.empty]

theorem isMissingRoleE_wrap (x : Except String STSCredentials) :
    isMissingRoleE
      (match x with
       | .error m => .error (.network m)
       | .ok c => .ok c) = false := by
  cases x <;> rfl

theorem assumeRoleFromCreds_not_missing (cfg : Config) (env : Env) (creds : Value)
    (h : ¬ cfg.roleARN = "") :
    isMissingRoleE (assumeRoleFromCreds cfg env creds).1 = false := by
  unfold assumeRoleFromCreds assumeCall
  rw [if_neg h]
  repeat' split
  all_goals first | rfl | exact isMissingRoleE_wrap _

theorem assumeRoleFromSession_not_missing (cfg : Config) (env : Env)
    (session : STSCredentials) :
    isMissingRoleE (assumeRoleFromSession cfg env session).1 = false := by
  unfold assumeRoleFromSession assumeCall
  exact isMissingRoleE_wrap _

theorem createSessionToken_not_missing (cfg : Config) (env : Env) :
    isMissingRoleE (createSessionToken cfg env).1 = false := by
  unfold createSessionToken elevateCall
  repeat' split
  all_goals first | rfl | exact isMissingRoleE_wrap _

theorem getSessionToken_not_missing (cfg : Config) (env : Env) (p : PState) :
    isMissingRoleE (getSessionToken cfg env p).res = false := by
  have hc := createSessionToken_not_missing cfg env
  unfold getSessionToken
  repeat' split
  all_goals simp_all [isMissingRoleE]

theorem assumeRoleFromCreds_elevates (cfg : Config) (env : Env) (creds : Value) :
    (assumeRoleFromCreds cfg env creds).2.elevates = [] := by
  unfold assumeRoleFromCreds
  repeat' split
  all_goals rfl

theorem assumeRoleFromCreds_cacheOps (cfg : Config) (env : Env) (creds : Value) :
    (assumeRoleFromCreds cfg env creds).2.cacheReads = [] ∧
    (assumeRoleFromCreds cfg env creds).2.cacheWrites = [] := by
  unfold assumeRoleFromCreds
  repeat' split
  all_goals exact ⟨rfl, rfl⟩

theorem assumeRoleFromCreds_assumes_le (cfg : Config) (env : Env) (creds : Value) :
    (assumeRoleFromCreds cfg env creds).2.assumes.length ≤ 1 := by
  unfold assumeRoleFromCreds
  repeat' split
  all_goals simp [Trace.empty]

theorem assumeRoleFromCreds_base (cfg : Config) (env : Env) (creds : Value) :
    ∀ c ∈ (assumeRoleFromCreds cfg env creds).2.assumes, c.base = creds := by
  unfold assumeRoleFromCreds
  repeat' split
  all_goals simp [Trace.empty]

theorem assumeRoleFromSession_tr (cfg : Config) (env : Env) (session : STSCredentials) :
    (assumeRoleFromSession cfg env session).2.elevates = [] ∧
    (assumeRoleFromSession cfg env session).2.prompts = [] ∧
    (assumeRoleFromSession cfg env session).2.cacheReads = [] ∧
    (assumeRoleFromSession cfg env session).2.cacheWrites = [] ∧
    ∃ input, (assumeRoleFromSession cfg env session).2.assumes =
        [⟨Value.ofSession session, input⟩] ∧
      input.serialNumber = none ∧ input.tokenCode = none := by
  unfold assumeRoleFromSession
  exact ⟨rfl, rfl, rfl, rfl, ⟨_, rfl, rfl, rfl⟩⟩

theorem getSessionToken_assumes (cfg : Config) (env : Env) (p : PState) :
    (getSessionToken cfg env p).tr.assumes = [] := by
  unfold getSessionToken
  repeat' split
  all_goals simp [Trace.app, Trace.empty, createSessionToken_assumes]

theorem getSessionToken_elevates_le (cfg : Config) (env : Env) (p : PState) :
    (getSessionToken cfg env p).tr.elevates.length ≤ 1 := by
  have h := createSessionToken_elevates_le cfg env
  unfold getSessionToken
  repeat' split
  all_goals simp_all [Trace.app, Trace.empty]

theorem Retrieve_masterOnly (cfg : Config) (env : Env) (p : PState)
    (hn : cfg.noSession = true) (hr : cfg.roleARN = "") :
    Retrieve cfg env p =
      (match env.masterGet with
       | .ok v => ⟨v, none, p, Trace.empty⟩
       | .error m => ⟨Value.zero, some (.masterFailed m), p, Trace.empty⟩) := by
  unfold Retrieve
  rw [if_pos ⟨hn, hr⟩]

theorem Retrieve_roleFromMaster (cfg : Config) (env : Env) (p : PState)
    (hn : cfg.noSession = true) (hr : ¬ cfg.roleARN = "") :
    Retrieve cfg env p = getCredsWithRole cfg env p := by
  unfold Retrieve
  rw [if_neg (by simp [hr]), if_pos hn]

theorem Retrieve_sessionOnly (cfg : Config) (env : Env) (p : PState)
    (hn : cfg.noSession = false) (hr : cfg.roleARN = "") :
    Retrieve cfg env p = getCredsWithSession cfg env p := by
  unfold Retrieve
  rw [if_neg (by simp [hn]), if_neg (by simp [hn]), if_pos hr]

theorem Retrieve_sessionThenRole (cfg : Config) (env : Env) (p : PState)
    (hn : cfg.noSession = false) (hr : ¬ cfg.roleARN = "") :
    Retrieve cfg env p = getCredsWithSessionAndRole cfg env p := by
  unfold Retrieve
  rw [if_neg (by simp [hn]), if_neg (by simp [hn]), if_neg hr]

theorem getCredsWithRole_tr (cfg : Config) (env : Env) (p : PState) :
    (getCredsWithRole cfg env p).tr = Trace.empty ∨
    ∃ v, env.masterGet = .ok v ∧
      (getCredsWithRole cfg env p).tr = (assumeRoleFromCreds cfg env v).2 := by
  unfold getCredsWithRole
  split
  · left; rfl
  · rcases hm : env.masterGet with m | v
    · left; simp [hm]
    · right
      refine ⟨v, rfl, ?_⟩
      simp only [hm]
      rcases (assumeRoleFromCreds cfg env v).1 with e | role <;> rfl

theorem getCredsWithSession_tr (cfg : Config) (env : Env) (p : PState) :
    (getCredsWithSession cfg env p).tr = (getSessionToken cfg env p).tr := by
  unfold getCredsWithSession
  rcases h : (getSessionToken cfg env p).res with e | tok <;> simp [h]

theorem getCredsWithSessionAndRole_tr (cfg : Config) (env : Env) (p : PState) :
    (getCredsWithSessionAndRole cfg env p).tr = (getSessionToken cfg env p).tr ∨
    ∃ tok, (getSessionToken cfg env p).res = .ok tok ∧
      (getCredsWithSessionAndRole cfg env p).tr =
        (getSessionToken cfg env p).tr.app (assumeRoleFromSession cfg env tok).2 := by
  unfold getCredsWithSessionAndRole
  rcases h : (getSessionToken cfg env p).res with e | tok
  · left; simp [h]
  · right
    refine ⟨tok, rfl, ?_⟩
    simp only [h]
    rcases (assumeRoleFromSession cfg env tok).1 with e | role <;> rfl

theorem getSessionToken_forced (cfg : Config) (env : Env) (p : PState)
    (h : p.forceSessionRefresh = true) :
    getSessionToken cfg env p =
      ⟨(createSessionToken cfg env).1, p, (createSessionToken cfg env).2⟩ := by
  unfold getSessionToken
  rw [if_pos h]

theorem getSessionToken_flag (cfg : Config) (env : Env) (p : PState) :
    (getSessionToken cfg env p).state.forceSessionRefresh = p.forceSessionRefresh := by
  unfold getSessionToken
  repeat' split
  all_goals rfl

theorem retrieve_preserves_flag (cfg : Config) (env : Env) (p : PState) :
    (Retrieve cfg env p).state.forceSessionRefresh = p.forceSessionRefresh := by
  unfold Retrieve getCredsWithRole getCredsWithSession getCredsWithSessionAndRole
  repeat' split
  all_goals simp [getSessionToken_flag]

theorem getCredsWithSession_state_cache (cfg : Config) (env : Env) (p : PState) :
    (getCredsWithSession cfg env p).state.cache = (getSessionToken cfg env p).state.cache := by
  unfold getCredsWithSession
  rcases h : (getSessionToken cfg env p).res with e | tok <;> simp [h]

theorem getCredsWithSessionAndRole_state_cache (cfg : Config) (env : Env) (p : PState) :
    (getCredsWithSessionAndRole cfg env p).state.cache =
      (getSessionToken cfg env p).state.cache := by
  unfold getCredsWithSessionAndRole
  rcases h : (getSessionToken cfg env p).res with e | tok
  · simp [h]
  · simp only [h]
    rcases h2 : (assumeRoleFromSession cfg env tok).1 with e | role <;> simp [h2]

theorem getCredsWithSessionAndRole_tr_parts (cfg : Config) (env : Env) (p : PState) :
    (getCredsWithSessionAndRole cfg env p).tr.elevates =
      (getSessionToken cfg env p).tr.elevates ∧
    (getCredsWithSessionAndRole cfg env p).tr.prompts =
      (getSessionToken cfg env p).tr.prompts ∧
    (getCredsWithSessionAndRole cfg env p).tr.cacheReads =
      (getSessionToken cfg env p).tr.cacheReads ∧
    (getCredsWithSessionAndRole cfg env p).tr.cacheWrites =
      (getSessionToken cfg env p).tr.cacheWrites := by
  rcases getCredsWithSessionAndRole_tr cfg env p with h | ⟨tok, hg, h⟩ <;> rw [h]
  · exact ⟨rfl, rfl, rfl, rfl⟩
  · obtain ⟨hel, hpr, hcr, hcw, _⟩ := assumeRoleFromSession_tr cfg env tok
    simp [Trace.app, hel, hpr, hcr, hcw]

theorem createSessionToken_literal (cfg : Config) (env : Env) (h : cfg.mfaToken ≠ "") :
    (createSessionToken cfg env).2.prompts = [] ∧
    ∀ i ∈ (createSessionToken cfg env).2.elevates,
      i.serialNumber = (if cfg.mfaSerial = "" then none else some cfg.mfaSerial) ∧
      i.tokenCode = (if cfg.mfaSerial = "" then none else some cfg.mfaToken) := by
  unfold createSessionToken
  by_cases hs : cfg.mfaSerial = "" <;> simp [hs, h, Trace.empty]

theorem createSessionToken_noMfa (cfg : Config) (env : Env) (h : cfg.mfaSerial = "") :
    (createSessionToken cfg env).2.prompts = [] ∧
    ∀ i ∈ (createSessionToken cfg env).2.elevates,
      i.serialNumber = none ∧ i.tokenCode = none := by
  unfold createSessionToken
  simp [h, Trace.empty]

theorem assumeRoleFromCreds_literal (cfg : Config) (env : Env) (creds : Value)
    (h : cfg.mfaToken ≠ "") :
    (assumeRoleFromCreds cfg env creds).2.prompts = [] ∧
    ∀ c ∈ (assumeRoleFromCreds cfg env creds).2.assumes,
      c.input.serialNumber = (if cfg.mfaSerial = "" then none else some cfg.mfaSerial) ∧
      c.input.tokenCode = (if cfg.mfaSerial = "" then none else some cfg.mfaToken) := by
  unfold assumeRoleFromCreds
  by_cases hr : cfg.roleARN = "" <;> by_cases hs : cfg.mfaSerial = "" <;>
    simp [hr, hs, h, Trace.empty]

theorem assumeRoleFromCreds_noMfa (cfg : Config) (env : Env) (creds : Value)
    (h : cfg.mfaSerial = "") :
    (assumeRoleFromCreds cfg env creds).2.prompts = [] ∧
    ∀ c ∈ (assumeRoleFromCreds cfg env creds).2.assumes,
      c.input.serialNumber = none ∧ c.input.tokenCode = none := by
  unfold assumeRoleFromCreds
  by_cases hr : cfg.roleARN = "" <;> simp [hr, h, Trace.empty]

theorem getSessionToken_tr_sub (cfg : Config) (env : Env) (p : PState) :
    ((getSessionToken cfg env p).tr.prompts = (createSessionToken cfg env).2.prompts ∧
     (getSessionToken cfg env p).tr.elevates = (createSessionToken cfg env).2.elevates) ∨
    ((getSessionToken cfg env p).tr.prompts = [] ∧
     (getSessionToken cfg env p).tr.elevates = []) := by
  unfold getSessionToken
  repeat' split
  all_goals first
    | exact Or.inr ⟨rfl, rfl⟩
    | (refine Or.inl ⟨?_, ?_⟩ <;> simp [Trace.app, Trace.empty])

theorem getSessionToken_prompts_literal (cfg : Config) (env : Env) (p : PState)
    (ht : cfg.mfaToken ≠ "") :
    (getSessionToken cfg env p).tr.prompts = [] := by
  rcases getSessionToken_tr_sub cfg env p with ⟨h, _⟩ | ⟨h, _⟩ <;> rw [h]
  exact (createSessionToken_literal cfg env ht).1

theorem getSessionToken_prompts_noMfa (cfg : Config) (env : Env) (p : PState)
    (hs : cfg.mfaSerial = "") :
    (getSessionToken cfg env p).tr.prompts = [] := by
  rcases getSessionToken_tr_sub cfg env p with ⟨h, _⟩ | ⟨h, _⟩ <;> rw [h]
  exact (createSessionToken_noMfa cfg env hs).1

theorem retrieve_prompts_literal (cfg : Config) (env : Env) (p : PState)
    (ht : cfg.mfaToken ≠ "") :
    (Retrieve cfg env p).tr.prompts = [] := by
  by_cases hn : cfg.noSession = true <;> by_cases hr : cfg.roleARN = ""
  · rw [Retrieve_masterOnly cfg env p hn hr]
    rcases env.masterGet with m | v <;> rfl
  · rw [Retrieve_roleFromMaster cfg env p hn hr]
    rcases getCredsWithRole_tr cfg env p with h | ⟨v, hm, h⟩ <;> rw [h]
    · rfl
    · exact (assumeRoleFromCreds_literal cfg env v ht).1
  · rw [Retrieve_sessionOnly cfg env p (by simpa using hn) hr, getCredsWithSession_tr]
    exact getSessionToken_prompts_literal cfg env p ht
  · rw [Retrieve_sessionThenRole cfg env p (by simpa using hn) hr,
      (getCredsWithSessionAndRole_tr_parts cfg env p).2.1]
    exact getSessionToken_prompts_literal cfg env p ht

theorem retrieve_prompts_noMfa (cfg : Config) (env : Env) (p : PState)
    (hs : cfg.mfaSerial = "") :
    (Retrieve cfg env p).tr.prompts = [] := by
  by_cases hn : cfg.noSession = true <;> by_cases hr : cfg.roleARN = ""
  · rw [Retrieve_masterOnly cfg env p hn hr]
    rcases env.masterGet with m | v <;> rfl
  · rw [Retrieve_roleFromMaster cfg env p hn hr]
    rcases getCredsWithRole_tr cfg env p with h | ⟨v, hm, h⟩ <;> rw [h]
    · rfl
    · exact (assumeRoleFromCreds_noMfa cfg env v hs).1
  · rw [Retrieve_sessionOnly cfg env p (by simpa using hn) hr, getCredsWithSession_tr]
    exact getSessionToken_prompts_noMfa cfg env p hs
  · rw [Retrieve_sessionThenRole cfg env p (by simpa using hn) hr,
      (getCredsWithSessionAndRole_tr_parts cfg env p).2.1]
    exact getSessionToken_prompts_noMfa cfg env p hs

/- Claim theorems. -/

/-- C2 counterexample: with the forced-refresh flag set and an empty cache, the
resolution obtains a fresh session token from the network elevate call (one
elevate call, its token returned as the credential) yet performs no cache write,
leaves the cache empty, and leaves the `forceSessionRefresh` flag still set —
so the token is not stored and the flag is not cleared, contradicting the claim. -/
theorem C2_counterexample :
    (Retrieve cfgBase envOk ⟨true, false, none, []⟩).tr.elevates.length = 1 ∧
    (Retrieve cfgBase envOk ⟨true, false, none, []⟩).value = Value.ofSession tok2 ∧
    (Retrieve cfgBase envOk ⟨true, false, none, []⟩).err = none ∧
    (Retrieve cfgBase envOk ⟨true, false, none, []⟩).state.cache = [] ∧
    (Retrieve cfgBase envOk ⟨true, false, none, []⟩).tr.cacheWrites = [] ∧
    (Retrieve cfgBase envOk ⟨true, false, none, []⟩).state.forceSessionRefresh = true := by
  decide

/-- C2 amended: only on the cache-miss path with the forced-refresh flag unset
is a fresh network-obtained session token stored in the SessionCache keyed by
(account identity, MFA serial), overwriting any prior entry; on the
forced-refresh path the token is not stored, and no resolution ever clears the
`forceSessionRefresh` flag (the final flag always equals the initial flag). -/
theorem C2_store_on_miss_only (cfg : Config) (env : Env) (p : PState)
    (tok : STSCredentials) (e : Err)
    (hf : p.forceSessionRefresh = false)
    (hmiss : sessionsRetrieve env p.cache cfg.credentialsName cfg.mfaSerial = .error e)
    (hok : (createSessionToken cfg env).1 = .ok tok)
    (hstore : env.storeFails = none) :
    (getSessionToken cfg env p).res = .ok tok ∧
    (getSessionToken cfg env p).state.cache =
      cacheInsert p.cache cfg.credentialsName cfg.mfaSerial tok ∧
    cacheLookup (getSessionToken cfg env p).state.cache
      cfg.credentialsName cfg.mfaSerial = some tok ∧
    (Retrieve cfg env p).state.forceSessionRefresh = p.forceSessionRefresh := by
  have key : getSessionToken cfg env p =
      ⟨.ok tok,
       { p with cache := cacheInsert p.cache cfg.credentialsName cfg.mfaSerial tok },
       ({ Trace.empty with cacheReads := [(cfg.credentialsName, cfg.mfaSerial)] }).app
         ((createSessionToken cfg env).2.app
           { Trace.empty with cacheWrites := [(cfg.credentialsName, cfg.mfaSerial)] })⟩ := by
    unfold getSessionToken
    rw [if_neg (by simp [hf])]
    simp only [hmiss, hok, sessionsStore, hstore]
  refine ⟨by rw [key], by rw [key], ?_, retrieve_preserves_flag cfg env p⟩
  rw [key]
  exact cacheLookup_insert p.cache cfg.credentialsName cfg.mfaSerial tok

/-- Witness for the amended C2 at a concrete input: flag clear, empty cache,
elevate succeeds, store succeeds; the fresh token ends up cached under the key
and the flag is unchanged. -/
theorem C2_store_on_miss_only_witness :
    pEmpty.forceSessionRefresh = false ∧
    sessionsRetrieve envOk pEmpty.cache cfgBase.credentialsName cfgBase.mfaSerial =
      .error .cacheNotFound ∧
    (createSessionToken cfgBase envOk).1 = .ok tok2 ∧
    envOk.storeFails = none ∧
    ((getSessionToken cfgBase envOk pEmpty).res = .ok tok2 ∧
     (getSessionToken cfgBase envOk pEmpty).state.cache =
       cacheInsert pEmpty.cache cfgBase.credentialsName cfgBase.mfaSerial tok2 ∧
     cacheLookup (getSessionToken cfgBase envOk pEmpty).state.cache
       cfgBase.credentialsName cfgBase.mfaSerial = some tok2 ∧
     (Retrieve cfgBase envOk pEmpty).state.forceSessionRefresh =
       pEmpty.forceSessionRefresh) :=
  ⟨rfl, rfl, rfl, rfl,
   C2_store_on_miss_only cfgBase envOk pEmpty tok2 .cacheNotFound rfl rfl rfl rfl⟩

/-- C3 counterexample: after `ForceRefresh` (flag set) with `tok1` cached under
("prod", ""), `Retrieve` does bypass the cache and performs the elevate call,
and succeeds returning the fresh `tok2` — but the cache entry still holds
`tok1`: the fresh token does not overwrite the cache entry, contradicting the
overwrite part of the claim. -/
theorem C3_counterexample :
    (Retrieve cfgBase envOk pForcedHit).tr.elevates.length = 1 ∧
    (Retrieve cfgBase envOk pForcedHit).tr.cacheReads = [] ∧
    (Retrieve cfgBase envOk pForcedHit).value = Value.ofSession tok2 ∧
    (Retrieve cfgBase envOk pForcedHit).err = none ∧
    (Retrieve cfgBase envOk pForcedHit).state.cache = [(("prod", ""), tok1)] := by
  decide

/-- C3 amended: with the forced-refresh flag set, a session-path `Retrieve`
performs no cache read and (when the MFA step allows the call) exactly one
network elevate call even if a cache entry exists — but on success it does not
overwrite the cache entry: no cache write occurs and the cache is unchanged. -/
theorem C3_force_refresh_bypasses_cache (cfg : Config) (env : Env) (p : PState)
    (tok : STSCredentials)
    (hf : p.forceSessionRefresh = true)
    (hn : cfg.noSession = false)
    (hok : (createSessionToken cfg env).1 = .ok tok) :
    (Retrieve cfg env p).tr.cacheReads = [] ∧
    (Retrieve cfg env p).tr.elevates.length = 1 ∧
    (Retrieve cfg env p).tr.cacheWrites = [] ∧
    (Retrieve cfg env p).state.cache = p.cache ∧
    (getSessionToken cfg env p).res = .ok tok := by
  have hgst := getSessionToken_forced cfg env p hf
  have hco := createSessionToken_cacheOps cfg env
  have hel := createSessionToken_ok_elevates cfg env tok hok
  by_cases hr : cfg.roleARN = ""
  · have he := Retrieve_sessionOnly cfg env p hn hr
    rw [he]
    refine ⟨?_, ?_, ?_, ?_, ?_⟩
    · rw [getCredsWithSession_tr, hgst]; exact hco.1
    · rw [getCredsWithSession_tr, hgst]; exact hel
    · rw [getCredsWithSession_tr, hgst]; exact hco.2
    · rw [getCredsWithSession_state_cache, hgst]
    · rw [hgst]; exact hok
  · have he := Retrieve_sessionThenRole cfg env p hn hr
    obtain ⟨htel, htpr, htcr, htcw⟩ := getCredsWithSessionAndRole_tr_parts cfg env p
    rw [he]
    refine ⟨?_, ?_, ?_, ?_, ?_⟩
    · rw [htcr, hgst]; exact hco.1
    · rw [htel, hgst]; exact hel
    · rw [htcw, hgst]; exact hco.2
    · rw [getCredsWithSessionAndRole_state_cache, hgst]
    · rw [hgst]; exact hok

/-- Witness for the amended C3 at a concrete input: flag set, `tok1` cached;
the resolution reads nothing from the cache, elevates once, writes nothing, and
leaves the cache unchanged. -/
theorem C3_force_refresh_bypasses_cache_witness :
    pForcedHit.forceSessionRefresh = true ∧
    cfgBase.noSession = false ∧
    (createSessionToken cfgBase envOk).1 = .ok tok2 ∧
    ((Retrieve cfgBase envOk pForcedHit).tr.cacheReads = [] ∧
     (Retrieve cfgBase envOk pForcedHit).tr.elevates.length = 1 ∧
     (Retrieve cfgBase envOk pForcedHit).tr.cacheWrites = [] ∧
     (Retrieve cfgBase envOk pForcedHit).state.cache = pForcedHit.cache ∧
     (getSessionToken cfgBase envOk pForcedHit).res = .ok tok2) :=
  ⟨rfl, rfl, rfl,
   C3_force_refresh_bypasses_cache cfgBase envOk pForcedHit tok2 rfl rfl rfl⟩

/-- C10: the "No role defined" branches in `getCredsWithRole` and
`assumeRoleFromCreds` are unreachable through `Retrieve`: for every
configuration, environment, and state, `Retrieve` never returns the engine's
missing-role configuration error. -/
theorem C10_no_missing_role_error (cfg : Config) (env : Env) (p : PState) :
    isMissingRole (Retrieve cfg env p).err = false := by
  unfold Retrieve
  by_cases hn : cfg.noSession = true <;> by_cases hr : cfg.roleARN = ""
  · rcases hm : env.masterGet with m | v <;> simp [hn, hr, hm, isMissingRole]
  · rw [if_neg (by simp [hr]), if_pos hn]
    unfold getCredsWithRole
    rw [if_neg hr]
    rcases hm : env.masterGet with m | v
    · simp [isMissingRole]
    · rcases ha : (assumeRoleFromCreds cfg env v).1 with e | role
      · have h2 := assumeRoleFromCreds_not_missing cfg env v hr
        rw [ha] at h2
        simp only [ha]
        cases e <;> simp_all [isMissingRoleE, isMissingRole]
      · simp [ha, isMissingRole]
  · rw [if_neg (by simp [hn]), if_neg hn, if_pos hr]
    unfold getCredsWithSession
    rcases hg : (getSessionToken cfg env p).res with e | tok <;>
      simp [hg, isMissingRole]
  · rw [if_neg (by simp [hn]), if_neg hn, if_neg hr]
    unfold getCredsWithSessionAndRole
    rcases hg : (getSessionToken cfg env p).res with e | tok
    · simp [hg, isMissingRole]
    · rcases ha : (assumeRoleFromSession cfg env tok).1 with e | role
      · have h2 := assumeRoleFromSession_not_missing cfg env tok
        rw [ha] at h2
        simp only [hg, ha]
        cases e <;> simp_all [isMissingRoleE, isMissingRole]
      · simp [hg, ha, isMissingRole]

/-- C5: with the forced-refresh flag unset and the session cache holding an
entry under the (account identity, MFA serial) key which the cache read
returns, `getSessionToken` yields exactly that stored token — whatever its
expiration — with no elevate call, no MFA prompt, no cache write, and the
engine state unchanged. -/
theorem C5_cache_hit_no_network (cfg : Config) (env : Env) (p : PState)
    (tok : STSCredentials)
    (hf : p.forceSessionRefresh = false)
    (hr : env.cacheReadFails = false)
    (hit : cacheLookup p.cache cfg.credentialsName cfg.mfaSerial = some tok) :
    getSessionToken cfg env p =
      ⟨.ok tok, p, { Trace.empty with cacheReads := [(cfg.credentialsName, cfg.mfaSerial)] }⟩ := by
  unfold getSessionToken
  rw [if_neg (by simp [hf])]
  simp [sessionsRetrieve, hr, hit]

/-- C4: `Retrieve` selects exactly one of four mutually exclusive paths as a
pure function of (`noSession`, `hasRole`): master credential verbatim with no
network or cache operation at all; role from master with no elevate call and no
cache read, at most one AssumeRole call whose base credentials are the master
credentials; session-only with no AssumeRole call and at most one elevate call;
session-then-role with at most one elevate call and at most one AssumeRole
call whose base credentials are the obtained session token's keys. -/
theorem C4_four_path_dispatch (cfg : Config) (env : Env) (p : PState) :
    ((cfg.noSession = true ∧ cfg.roleARN = "") →
      Retrieve cfg env p =
        (match env.masterGet with
         | .ok v => ⟨v, none, p, Trace.empty⟩
         | .error m => ⟨Value.zero, some (.masterFailed m), p, Trace.empty⟩)) ∧
    ((cfg.noSession = true ∧ cfg.roleARN ≠ "") →
      Retrieve cfg env p = getCredsWithRole cfg env p ∧
      (Retrieve cfg env p).tr.elevates = [] ∧
      (Retrieve cfg env p).tr.cacheReads = [] ∧
      (Retrieve cfg env p).tr.assumes.length ≤ 1 ∧
      ∀ c ∈ (Retrieve cfg env p).tr.assumes, env.masterGet = .ok c.base) ∧
    ((cfg.noSession = false ∧ cfg.roleARN = "") →
      Retrieve cfg env p = getCredsWithSession cfg env p ∧
      (Retrieve cfg env p).tr.assumes = [] ∧
      (Retrieve cfg env p).tr.elevates.length ≤ 1) ∧
    ((cfg.noSession = false ∧ cfg.roleARN ≠ "") →
      Retrieve cfg env p = getCredsWithSessionAndRole cfg env p ∧
      (Retrieve cfg env p).tr.elevates.length ≤ 1 ∧
      (Retrieve cfg env p).tr.assumes.length ≤ 1 ∧
      ∀ c ∈ (Retrieve cfg env p).tr.assumes,
        ∃ tok, (getSessionToken cfg env p).res = .ok tok ∧
          c.base = Value.ofSession tok) := by
  refine ⟨?_, ?_, ?_, ?_⟩
  · rintro ⟨hn, hr⟩
    exact Retrieve_masterOnly cfg env p hn hr
  · rintro ⟨hn, hr⟩
    have he := Retrieve_roleFromMaster cfg env p hn hr
    refine ⟨he, ?_⟩
    rw [he]
    rcases getCredsWithRole_tr cfg env p with h | ⟨v, hm, h⟩
    · rw [h]
      exact ⟨rfl, rfl, by simp [Trace.empty], by simp [Trace.empty]⟩
    · rw [h]
      refine ⟨assumeRoleFromCreds_elevates cfg env v,
              (assumeRoleFromCreds_cacheOps cfg env v).1,
              assumeRoleFromCreds_assumes_le cfg env v, ?_⟩
      intro c hc
      rw [assumeRoleFromCreds_base cfg env v c hc]
      exact hm
  · rintro ⟨hn, hr⟩
    have he := Retrieve_sessionOnly cfg env p hn hr
    refine ⟨he, ?_, ?_⟩ <;> rw [he, getCredsWithSession_tr]
    · exact getSessionToken_assumes cfg env p
    · exact getSessionToken_elevates_le cfg env p
  · rintro ⟨hn, hr⟩
    have he := Retrieve_sessionThenRole cfg env p hn hr
    refine ⟨he, ?_⟩
    rw [he]
    rcases getCredsWithSessionAndRole_tr cfg env p with h | ⟨tok, hg, h⟩
    · rw [h]
      refine ⟨getSessionToken_elevates_le cfg env p, ?_, ?_⟩
      · rw [getSessionToken_assumes cfg env p]; simp
      · rw [getSessionToken_assumes cfg env p]; simp
    · rw [h]
      obtain ⟨hel, hpr, hcr, hcw, input, has, hserial, hcode⟩ :=
        assumeRoleFromSession_tr cfg env tok
      refine ⟨?_, ?_, ?_⟩
      · simp only [Trace.app, hel, List.append_nil]
        exact getSessionToken_elevates_le cfg env p
      · simp only [Trace.app, has, getSessionToken_assumes cfg env p]
        simp
      · intro c hc
        simp only [Trace.app, has, getSessionToken_assumes cfg env p,
          List.nil_append, List.mem_singleton] at hc
        exact ⟨tok, hg, by rw [hc]⟩

/-- Witness for C4 at a concrete input: the SessionOnly configuration takes the
session path, with no AssumeRole call and at most one elevate call. -/
theorem C4_four_path_dispatch_witness :
    (cfgBase.noSession = false ∧ cfgBase.roleARN = "") ∧
    (Retrieve cfgBase envOk pEmpty = getCredsWithSession cfgBase envOk pEmpty ∧
     (Retrieve cfgBase envOk pEmpty).tr.assumes = [] ∧
     (Retrieve cfgBase envOk pEmpty).tr.elevates.length ≤ 1) :=
  ⟨⟨rfl, rfl⟩, (C4_four_path_dispatch cfgBase envOk pEmpty).2.2.1 ⟨rfl, rfl⟩⟩

/-- Witness for C5 at a concrete input: cache holds `tok1` for ("prod", ""),
flag clear, and `getSessionToken` returns `tok1` with a read-only trace. -/
theorem C5_cache_hit_no_network_witness :
    pHit.forceSessionRefresh = false ∧
    envOk.cacheReadFails = false ∧
    cacheLookup pHit.cache cfgBase.credentialsName cfgBase.mfaSerial = some tok1 ∧
    getSessionToken cfgBase envOk pHit =
      ⟨.ok tok1, pHit, { Trace.empty with cacheReads := [("prod", "")] }⟩ :=
  ⟨rfl, rfl, by decide,
   C5_cache_hit_no_network cfgBase envOk pHit tok1 rfl rfl (by decide)⟩

/-- C1: evaluation at the failing input.  When the elevate call fails on the
SessionOnly path (and likewise on SessionThenRole), `getSessionToken` returns
the network error, but `Retrieve` swallows it: the caller receives a nil error
together with the zero-valued credential, contradicting the claim that the
error is returned unmodified. -/
theorem C1_session_error_swallowed :
    (getSessionToken cfgBase envElevFail pEmpty).res =
      .error (.network "connection refused") ∧
    (Retrieve cfgBase envElevFail pEmpty).err = none ∧
    (Retrieve cfgBase envElevFail pEmpty).value = Value.zero ∧
    (Retrieve cfgBase envElevFail pEmpty).tr.elevates.length = 1 ∧
    (Retrieve cfgSessRole envElevFail pEmpty).err = none ∧
    (Retrieve cfgSessRole envElevFail pEmpty).value = Value.zero :=
  ⟨rfl, rfl, rfl, rfl, rfl, rfl⟩

/-- C6: evaluation at the failing input.  With an MFA device configured, no
literal code, a failing prompt, and a pre-existing cached session under the
key (reached via a cache-read backend failure treated as a miss): the prompt is
invoked once and fails, no elevate call happens, nothing is written to the
cache and the pre-existing entry is untouched — but `Retrieve` does not abort
with an error: it returns a nil error with the zero credential. -/
theorem C6_prompt_failure_swallowed :
    (getSessionToken cfgMfa envPromptFail pMfaHit).res =
      .error (.promptFailed "user cancelled") ∧
    (Retrieve cfgMfa envPromptFail pMfaHit).err = none ∧
    (Retrieve cfgMfa envPromptFail pMfaHit).value = Value.zero ∧
    (Retrieve cfgMfa envPromptFail pMfaHit).tr.prompts.length = 1 ∧
    (Retrieve cfgMfa envPromptFail pMfaHit).tr.elevates = [] ∧
    (Retrieve cfgMfa envPromptFail pMfaHit).tr.cacheWrites = [] ∧
    (Retrieve cfgMfa envPromptFail pMfaHit).state.cache = pMfaHit.cache :=
  ⟨rfl, rfl, rfl, rfl, rfl, rfl, rfl⟩

/-- C8: evaluation at the failing input.  A cache-read backend failure is
treated exactly as a miss (the engine falls through to one elevate call and
succeeds), as the claim says; but a cache-store failure after a fresh token was
created, although surfaced as an error by `getSessionToken`, is swallowed by
`Retrieve` on the session path: the caller receives a nil error with the zero
credential instead of the store error. -/
theorem C8_cache_error_eval :
    (Retrieve cfgBase envReadFail pHit).tr.elevates.length = 1 ∧
    (Retrieve cfgBase envReadFail pHit).err = none ∧
    (Retrieve cfgBase envReadFail pHit).value = Value.ofSession tok2 ∧
    (getSessionToken cfgBase envStoreFail pEmpty).res =
      .error (.cacheStoreFailed "disk full") ∧
    (Retrieve cfgBase envStoreFail pEmpty).err = none ∧
    (Retrieve cfgBase envStoreFail pEmpty).value = Value.zero :=
  ⟨rfl, rfl, rfl, rfl, rfl, rfl⟩

/-- C7: when a literal MFA code is configured the prompt capability is never
invoked on any path, and the literal code (with the device serial) is attached
to the network request that presents MFA — the elevate request built by
`createSessionToken` and the direct AssumeRole request built by
`assumeRoleFromCreds`; when no MFA device is configured, no prompt is invoked
and every network request carries neither a serial nor a code. -/
theorem C7_literal_mfa_no_prompt (cfg : Config) (env : Env) (p : PState) :
    (cfg.mfaToken ≠ "" →
      (Retrieve cfg env p).tr.prompts = [] ∧
      (∀ i ∈ (createSessionToken cfg env).2.elevates,
        i.serialNumber = (if cfg.mfaSerial = "" then none else some cfg.mfaSerial) ∧
        i.tokenCode = (if cfg.mfaSerial = "" then none else some cfg.mfaToken)) ∧
      (∀ creds : Value, ∀ c ∈ (assumeRoleFromCreds cfg env creds).2.assumes,
        c.input.serialNumber = (if cfg.mfaSerial = "" then none else some cfg.mfaSerial) ∧
        c.input.tokenCode = (if cfg.mfaSerial = "" then none else some cfg.mfaToken))) ∧
    (cfg.mfaSerial = "" →
      (Retrieve cfg env p).tr.prompts = [] ∧
      (∀ i ∈ (createSessionToken cfg env).2.elevates,
        i.serialNumber = none ∧ i.tokenCode = none) ∧
      (∀ creds : Value, ∀ c ∈ (assumeRoleFromCreds cfg env creds).2.assumes,
        c.input.serialNumber = none ∧ c.input.tokenCode = none) ∧
      (∀ session : STSCredentials,
        ∀ c ∈ (assumeRoleFromSession cfg env session).2.assumes,
          c.input.serialNumber = none ∧ c.input.tokenCode = none)) := by
  constructor
  · intro ht
    exact ⟨retrieve_prompts_literal cfg env p ht,
           (createSessionToken_literal cfg env ht).2,
           fun creds => (assumeRoleFromCreds_literal cfg env creds ht).2⟩
  · intro hs
    refine ⟨retrieve_prompts_noMfa cfg env p hs,
            (createSessionToken_noMfa cfg env hs).2,
            fun creds => (assumeRoleFromCreds_noMfa cfg env creds hs).2,
            ?_⟩
    intro session c hc
    obtain ⟨_, _, _, _, input, has, hserial, hcode⟩ :=
      assumeRoleFromSession_tr cfg env session
    rw [has] at hc
    simp only [List.mem_singleton] at hc
    rw [hc]
    exact ⟨hserial, hcode⟩

/-- Witness for C7 at a concrete input: with the literal code "654321" and a
device configured, a full `Retrieve` performs no prompt, and the elevate
request carries the device serial and the literal code. -/
theorem C7_literal_mfa_no_prompt_witness :
    cfgMfaLit.mfaToken ≠ "" ∧
    ((Retrieve cfgMfaLit envOk pEmpty).tr.prompts = [] ∧
     (∀ i ∈ (createSessionToken cfgMfaLit envOk).2.elevates,
       i.serialNumber =
         (if cfgMfaLit.mfaSerial = "" then none else some cfgMfaLit.mfaSerial) ∧
       i.tokenCode =
         (if cfgMfaLit.mfaSerial = "" then none else some cfgMfaLit.mfaToken)) ∧
     (∀ creds : Value, ∀ c ∈ (assumeRoleFromCreds cfgMfaLit envOk creds).2.assumes,
       c.input.serialNumber =
         (if cfgMfaLit.mfaSerial = "" then none else some cfgMfaLit.mfaSerial) ∧
       c.input.tokenCode =
         (if cfgMfaLit.mfaSerial = "" then none else some cfgMfaLit.mfaToken))) :=
  ⟨by decide, (C7_literal_mfa_no_prompt cfgMfaLit envOk pEmpty).1 (by decide)⟩

/-- C9: on every successful resolution of the SessionOnly, SessionThenRole and
RoleFromMaster paths, the recorded `SetExpiration` call carries the returned
credential's reported expiration together with the fixed `DefaultExpirationWindow`
(5 minutes); on the MasterOnly path the engine records no expiration. -/
theorem C9_set_expiration (cfg : Config) (env : Env) (p : PState) :
    ((cfg.noSession = true ∧ cfg.roleARN = "") →
      (Retrieve cfg env p).state.lastSetExpiration = p.lastSetExpiration) ∧
    ((cfg.noSession = false ∧ cfg.roleARN = "") → ∀ tok : STSCredentials,
      (getSessionToken cfg env p).res = .ok tok →
      (Retrieve cfg env p).state.lastSetExpiration =
        some (tok.expiration, DefaultExpirationWindow) ∧
      (Retrieve cfg env p).value = Value.ofSession tok) ∧
    ((cfg.noSession = false ∧ cfg.roleARN ≠ "") → ∀ tok role : STSCredentials,
      (getSessionToken cfg env p).res = .ok tok →
      (assumeRoleFromSession cfg env tok).1 = .ok role →
      (Retrieve cfg env p).state.lastSetExpiration =
        some (role.expiration, DefaultExpirationWindow) ∧
      (Retrieve cfg env p).value = Value.ofSession role) ∧
    ((cfg.noSession = true ∧ cfg.roleARN ≠ "") → ∀ v : Value, ∀ role : STSCredentials,
      env.masterGet = .ok v →
      (assumeRoleFromCreds cfg env v).1 = .ok role →
      (Retrieve cfg env p).state.lastSetExpiration =
        some (role.expiration, DefaultExpirationWindow) ∧
      (Retrieve cfg env p).value = Value.ofSession role) ∧
    DefaultExpirationWindow = 5 * 60 * 1000000000 := by
  refine ⟨?_, ?_, ?_, ?_, rfl⟩
  · rintro ⟨hn, hr⟩
    rw [Retrieve_masterOnly cfg env p hn hr]
    rcases env.masterGet with m | v <;> rfl
  · rintro ⟨hn, hr⟩ tok hok
    rw [Retrieve_sessionOnly cfg env p hn hr]
    unfold getCredsWithSession
    simp only [hok]
    exact ⟨trivial, trivial⟩
  · rintro ⟨hn, hr⟩ tok role hok hrole
    rw [Retrieve_sessionThenRole cfg env p hn hr]
    unfold getCredsWithSessionAndRole
    simp only [hok, hrole]
    exact ⟨trivial, trivial⟩
  · rintro ⟨hn, hr⟩ v role hm hrole
    rw [Retrieve_roleFromMaster cfg env p hn hr]
    unfold getCredsWithRole
    rw [if_neg hr]
    simp only [hm, hrole]
    exact ⟨trivial, trivial⟩

/-- Witness for C9 at a concrete input: a successful SessionOnly resolution
records the session token's expiration with the 5-minute window and returns
the token's keys. -/
theorem C9_set_expiration_witness :
    (cfgBase.noSession = false ∧ cfgBase.roleARN = "") ∧
    (getSessionToken cfgBase envOk pEmpty).res = .ok tok2 ∧
    ((Retrieve cfgBase envOk pEmpty).state.lastSetExpiration =
       some (tok2.expiration, DefaultExpirationWindow) ∧
     (Retrieve cfgBase envOk pEmpty).value = Value.ofSession tok2) :=
  ⟨⟨rfl, rfl⟩, rfl, (C9_set_expiration cfgBase envOk pEmpty).2.1 ⟨rfl, rfl⟩ tok2 rfl⟩

end Vault
